import Mathlib

/-!
# Verification of the Motivora Studio render-job orchestrator

Shallow embedding of the job orchestration core of `server.py`:
the per-job monitor loop (`_monitor_blender_job`), its stdout line
classifier and ETA estimator, the terminal transition and post-processing
(`_interpolate_video`), cancellation (`cancel_job`), submission capacity
checking (`render_page`), and the status query (`job_status`).

Numbers that are Python floats are modelled as exact rationals (ℚ); the
claims under study are about the algebraic form of the computations, not
about floating-point rounding.  Filesystem, subprocess and database actions
are modelled as an explicit effect trace.
-/

namespace Motivora

/-! ## Python string primitives

The monitor classifies each stdout line with `str.strip`, `str.startswith`,
`str.replace(":", " ")`, `str.split()` and `str.isdigit`.  These are embedded
character-list-wise with the semantics Python gives them on ASCII text.
-/

/-- Python `str.strip()`: drop whitespace from both ends. -/
def pyStrip (s : String) : String :=
  ⟨((s.data.dropWhile Char.isWhitespace).reverse.dropWhile Char.isWhitespace).reverse⟩

/-- `isStartOf p l` is true when the char list `p` is an initial segment of `l`. -/
def isStartOf : List Char → List Char → Bool
  | [], _ => true
  | _ :: _, [] => false
  | a :: as, b :: bs => a == b && isStartOf as bs

/-- Python `s.startswith(p)`. -/
def pyStartsWith (s p : String) : Bool :=
  isStartOf p.data s.data

/-- Split a char list on whitespace runs, dropping empty tokens
(Python `str.split()` with no argument). -/
def splitWsAux : List Char → List Char → List (List Char)
  | [], acc => if acc.isEmpty then [] else [acc.reverse]
  | c :: cs, acc =>
    if c.isWhitespace then
      if acc.isEmpty then splitWsAux cs [] else acc.reverse :: splitWsAux cs []
    else splitWsAux cs (c :: acc)

/-- Python `s.split()` returning tokens as strings. -/
def pySplitWs (s : String) : List String :=
  (splitWsAux s.data []).map (fun cs => ⟨cs⟩)

/-- Split a char list on every occurrence of `sep`, keeping empty pieces
(Python `s.split(sep)` for a one-character separator). -/
def splitOnCharAux (sep : Char) : List Char → List Char → List (List Char)
  | [], acc => [acc.reverse]
  | c :: cs, acc =>
    if c == sep then acc.reverse :: splitOnCharAux sep cs []
    else splitOnCharAux sep cs (c :: acc)

/-- Python `s.split(sep)` for a one-character separator. -/
def pySplitOnChar (sep : Char) (s : String) : List String :=
  (splitOnCharAux sep s.data []).map (fun cs => ⟨cs⟩)

/-- Python `s.replace(":", " ")`. -/
def replaceColons (s : String) : String :=
  ⟨s.data.map (fun c => if c == ':' then ' ' else c)⟩

/-- Python `str.isdigit()` restricted to ASCII: nonempty and all chars `0`-`9`. -/
def pyIsDigit (s : String) : Bool :=
  !s.data.isEmpty && s.data.all Char.isDigit

/-- Numeric value of an all-digit token (Python `int(token)`). -/
def digitsVal (cs : List Char) : ℕ :=
  cs.foldl (fun n c => n * 10 + (c.toNat - 48)) 0

/-- Python `line.strip("[]")`: drop `[` and `]` from both ends. -/
def stripSquare (s : String) : String :=
  let isBr := fun c : Char => c == '[' || c == ']'
  ⟨((s.data.dropWhile isBr).reverse.dropWhile isBr).reverse⟩

/-- A restricted Python `float(s)` for signed decimal literals
(`[+-]?digits[.digits]?` / `[+-]?.digits`); scientific notation is not
needed by the `[AUTO]` offset values the renderer prints. -/
def pyFloat (s : String) : Option ℚ :=
  let t := (pyStrip s).data
  let signAndRest : ℚ × List Char :=
    match t with
    | '-' :: cs => (-1, cs)
    | '+' :: cs => (1, cs)
    | cs => (1, cs)
  let sign := signAndRest.1
  let rest := signAndRest.2
  let intPart := rest.takeWhile Char.isDigit
  let rest2 := rest.drop intPart.length
  match rest2 with
  | [] =>
      if intPart.isEmpty then none
      else some (sign * (digitsVal intPart : ℚ))
  | '.' :: fracPart =>
      if fracPart.all Char.isDigit && !(intPart.isEmpty && fracPart.isEmpty) then
        some (sign * ((digitsVal intPart : ℚ)
          + (digitsVal fracPart : ℚ) / ((10 : ℚ) ^ fracPart.length)))
      else none
  | _ => none

/-! ## The line protocol -/

/-- The frame index carried by a `Fra:` progress line:
`parts = [t for t in line.replace(":", " ").split() if t]`,
`frame_numbers = [t for t in parts if t.isdigit()]`, first element
(`_monitor_blender_job`, server.py). -/
def firstDigitToken (line : String) : Option ℕ :=
  let parts := (pySplitWs (replaceColons line)).filter (fun t => t ≠ "")
  match parts.filter pyIsDigit with
  | [] => none
  | t :: _ => some (digitsVal t.data)

/-- The frame index a raw stdout line contributes, following the monitor's
classification order: strip, skip blank, `[AUTO]` lines first, then the
`Fra:` check and digit-token extraction. -/
def parsedFrame (raw : String) : Option ℕ :=
  let line := pyStrip raw
  if line = "" then none
  else if pyStartsWith line "[AUTO]" then none
  else if pyStartsWith line "Fra:" then firstDigitToken line
  else none

/-! ## Job state -/

/-- One entry of `ACTIVE_JOBS` (server.py, `render_page`), restricted to the
fields the orchestration logic reads or writes.  `cleanupDone` models the
`cleanup_done` key, absent (falsy) until set. -/
structure Job where
  state : String
  message : String
  progress : ℚ
  etaSeconds : Option ℚ
  outputPath : String
  blenderOutputPath : String
  workdir : String
  axis : String
  offset : ℚ
  startedAt : ℚ
  totalFrames : ℕ
  lastFrameIndex : ℕ
  lastFrameTimestamp : Option ℚ
  avgFrameTime : Option ℚ
  needsInterpolation : Bool
  finalFps : ℤ
  userId : Option ℕ
  cleanupDone : Bool
  deriving DecidableEq

/-- Local state of a monitor worker (`recent_lines`, `frame_durations`,
`last_frame_index`, `last_frame_timestamp` in `_monitor_blender_job`). -/
structure MonitorLocal where
  recentLines : List String
  frameDurations : List ℚ
  lastFrameIndex : Option ℕ
  lastFrameTimestamp : Option ℚ
  deriving DecidableEq

/-- Monitor-local variables at thread start. -/
def monitorInit : MonitorLocal :=
  { recentLines := [], frameDurations := [], lastFrameIndex := none,
    lastFrameTimestamp := none }

/-- Arguments of `_monitor_blender_job` that stay fixed for the whole run:
the `total_frames` parameter and the `axis` local captured once at start. -/
structure MonCfg where
  totalFrames : ℕ
  axis0 : String
  deriving DecidableEq

/-- Python truthiness of an optional float: `None` and `0.0` are falsy. -/
def pyTruthyQ : Option ℚ → Bool
  | none => false
  | some q => q != 0

/-- `sample = frame_durations[-20:] if len(frame_durations) > 20 else
frame_durations`. -/
def lastN (n : ℕ) (l : List ℚ) : List ℚ :=
  if l.length > n then l.drop (l.length - n) else l

/-- The linearly recency-weighted frame-time average:
`weights = [i + 1 for i in range(len(sample))]`,
`avg = sum(d * w) / sum(w)`. -/
def weightedFrameAvg (sample : List ℚ) : ℚ :=
  let weights := (List.range sample.length).map (fun i => i + 1)
  let weightedSum := ((sample.zip weights).map (fun p => p.1 * (p.2 : ℚ))).sum
  let weightTotal := (weights.map (fun w : ℕ => (w : ℚ))).sum
  weightedSum / weightTotal

/-- `current_frame_elapsed = now - last_frame_timestamp if
last_frame_timestamp else 0`, read after the timestamp was updated. -/
def elapsedOnCurrentFrame (loc : MonitorLocal) (now : ℚ) : ℚ :=
  match loc.lastFrameTimestamp with
  | some ts => if ts != 0 then now - ts else 0
  | none => 0

/-- The frame-duration bookkeeping of the `Fra:` branch: append the elapsed
delta when the frame index increased, capping the buffer at 20 entries
(`if last_frame_index is not None and frame > last_frame_index and
last_frame_timestamp: ...`). -/
def updatedDurations (loc : MonitorLocal) (frame : ℕ) (now : ℚ) : List ℚ :=
  match loc.lastFrameIndex, loc.lastFrameTimestamp with
  | some li, some ts =>
      if frame > li && ts != 0 then
        let delta := now - ts
        if delta > 0 then
          let ds := loc.frameDurations ++ [delta]
          if ds.length > 20 then ds.drop 1 else ds
        else loc.frameDurations
      else loc.frameDurations
  | _, _ => loc.frameDurations

/-- The body of the `Fra:` branch of the monitor loop once a frame index has
been extracted: progress update, frame-duration bookkeeping and the ETA
estimate (server.py, `_monitor_blender_job`). -/
def handleFrame (cfg : MonCfg) (job : Job) (loc : MonitorLocal)
    (frame : ℕ) (now : ℚ) : Job × MonitorLocal :=
  let progress := min 100 (max 0 ((frame : ℚ) / (cfg.totalFrames : ℚ) * 100))
  let job := { job with
    progress := progress,
    message := "Rendering frame " ++ toString frame ++ " of "
      ++ toString cfg.totalFrames ++ " (axis " ++ cfg.axis0 ++ ")" }
  -- (database progress write for owned jobs: external collaborator, no
  --  effect on the in-memory job)
  let durations := updatedDurations loc frame now
  let loc := { loc with
    frameDurations := durations,
    lastFrameIndex := some frame,
    lastFrameTimestamp := some now }
  let job := { job with lastFrameIndex := frame, lastFrameTimestamp := some now }
  if durations.length ≥ 5 then
    let sample := lastN 20 durations
    let avgFrame := weightedFrameAvg sample
    let job := { job with avgFrameTime := some avgFrame }
    let framesRemaining : ℤ := max 0 ((cfg.totalFrames : ℤ) - (frame : ℤ))
    let currentFrameElapsed := elapsedOnCurrentFrame loc now
    let baseEta := avgFrame * (framesRemaining : ℚ) + currentFrameElapsed
    let etaEstimate := baseEta * (5 / 4 : ℚ)
    ({ job with etaSeconds := some (max 0 etaEstimate) }, loc)
  else
    ({ job with etaSeconds := none }, loc)

/-- `dict(segment.split("=") for segment in line.strip("[]").split() if "="
in segment)`: `none` models the `ValueError` when some segment does not
split into exactly two parts. -/
def autoPairs (line : String) : Option (List (String × String)) :=
  let segs := (pySplitWs (stripSquare line)).filter (fun s => s.data.contains '=')
  segs.foldr
    (fun seg acc =>
      match acc with
      | none => none
      | some ps =>
        match pySplitOnChar '=' seg with
        | [k, v] => some ((k, v) :: ps)
        | _ => none)
    (some [])

/-- Python `dict` lookup: the last binding of a key wins. -/
def lookupLast (ps : List (String × String)) (k : String) : Option String :=
  ps.foldl (fun acc p => if p.1 = k then some p.2 else acc) none

/-- The `[AUTO]` branch of the monitor loop: parse `axis=…`/`offset=…`
key-value tokens; any parse failure is swallowed, keeping whatever was
already assigned (the `axis` assignment precedes the `float(offset)` call,
so it survives a malformed offset). -/
def applyAuto (job : Job) (line : String) : Job :=
  match autoPairs line with
  | none => job
  | some ps =>
    let job :=
      match lookupLast ps "axis" with
      | some a => { job with axis := a }
      | none => job
    match lookupLast ps "offset" with
    | some o =>
        match pyFloat o with
        | some q => { job with offset := q }
        | none => job
    | none => job

/-- One iteration of the monitor's line loop (`for raw_line in stdout`),
given the wall-clock time `ev.2` at which the line `ev.1` is handled. -/
def monitorLine (cfg : MonCfg) (s : Job × MonitorLocal) (ev : String × ℚ) :
    Job × MonitorLocal :=
  let job := s.1
  let loc := s.2
  let line := pyStrip ev.1
  if line = "" then s
  else
    let rl := loc.recentLines ++ [line]
    let loc := { loc with recentLines := if rl.length > 10 then rl.drop 1 else rl }
    if pyStartsWith line "[AUTO]" then
      (applyAuto { job with message := line } line, loc)
    else
      let job := { job with message := line }
      if pyStartsWith line "Fra:" then
        match firstDigitToken line with
        | some f => handleFrame cfg job loc f ev.2
        | none => (job, loc)
      else (job, loc)

/-- Run the monitor loop over a list of (line, arrival-time) events. -/
def runMonitor (cfg : MonCfg) (init : Job × MonitorLocal)
    (evs : List (String × ℚ)) : Job × MonitorLocal :=
  evs.foldl (monitorLine cfg) init

/-- The job's progress after the first `k` monitored lines. -/
def progressAfter (cfg : MonCfg) (init : Job × MonitorLocal)
    (evs : List (String × ℚ)) (k : ℕ) : ℚ :=
  (runMonitor cfg init (evs.take k)).1.progress

/-- `min(100.0, max(0.0, v))`. -/
def pyClamp (v : ℚ) : ℚ := min 100 (max 0 v)

/-- The ETA cold-start invariant: `eta_seconds` is `None` exactly while fewer
than 5 inter-frame durations have been recorded, and any recorded estimate is
non-negative. -/
def etaInv (s : Job × MonitorLocal) : Prop :=
  (s.1.etaSeconds = none ↔ s.2.frameDurations.length < 5)
  ∧ ∀ e, s.1.etaSeconds = some e → 0 ≤ e

/-! ## Terminal transition, post-processing, cancellation -/

/-- Observable side effects of the orchestrator (filesystem, subprocess,
registry and database actions), recorded as a trace. -/
inductive Effect where
  | mkWorkdir
  | saveUpload
  | rmWorkdir
  | launchBlender
  | registerProcess
  | registerJob
  | startMonitor
  | terminateProcess
  | popProcess
  | ffmpegRun
  | unlinkIntermediate
  | moveArtifact
  | copyToStorage
  | dbUpdate
  deriving DecidableEq

/-- `_interpolate_video` (server.py): move the artifact when `fps <= 0`;
otherwise run the FFmpeg `minterpolate` encoder and raise a `RuntimeError`
embedding the return code when it exits non-zero; on success the input
artifact is unlinked.  `moveOk` models whether the `shutil.move` fallback
succeeds; effects raised away by an exception are not traced. -/
def interpolateVideo (fps : ℤ) (ffmpegReturnCode : ℤ) (moveOk : Bool) :
    Except String (List Effect) :=
  if fps ≤ 0 then
    if moveOk then Except.ok [Effect.moveArtifact]
    else Except.error "move failed"
  else if ffmpegReturnCode ≠ 0 then
    Except.error ("FFmpeg interpolation failed ("
      ++ toString ffmpegReturnCode ++ ").")
  else Except.ok [Effect.ffmpegRun, Effect.unlinkIntermediate]

/-- The `finally:` block of `_monitor_blender_job` (server.py): wait for the
exit code, then perform the terminal transition.  `blenderOutExists` models
`blender_output_path.exists()`, `ffmpegReturnCode` the encoder's exit code,
`moveOk` whether `shutil.move` succeeds, `copyOk` whether the
`shutil.copy2` into persistent storage succeeds, and `recentLines` the
trailing diagnostic buffer. -/
def finalizeJob (job : Job) (returnCode : ℤ) (blenderOutExists : Bool)
    (ffmpegReturnCode : ℤ) (moveOk : Bool) (copyOk : Bool)
    (recentLines : List String) : Job × List Effect :=
  let step : Job × List Effect :=
    if returnCode = 0 ∧ blenderOutExists then
      -- try: post-processing / artifact move, then persistence, then the
      -- `finished` update
      let jt : Job :=
        if job.needsInterpolation then
          { job with message := "Post-processing frames for smoother motion…" }
        else job
      let attempt : Except String (List Effect) :=
        if job.needsInterpolation then
          interpolateVideo job.finalFps ffmpegReturnCode moveOk
        else if job.blenderOutputPath ≠ job.outputPath then
          if moveOk then Except.ok [Effect.moveArtifact]
          else Except.error "move failed"
        else Except.ok []
      match attempt with
      | Except.ok effs =>
          let copyEffs :=
            if jt.userId.isSome then
              if copyOk then [Effect.copyToStorage, Effect.dbUpdate]
              else [Effect.copyToStorage]
            else []
          ({ jt with
              state := "finished",
              message := "Render complete (axis " ++ jt.axis ++ ").",
              progress := 100,
              etaSeconds := some 0 }, effs ++ copyEffs)
      | Except.error msg =>
          let dbEffs := if jt.userId.isSome then [Effect.dbUpdate] else []
          ({ jt with
              state := "error",
              message := "Post-processing failed: " ++ msg,
              etaSeconds := none }, dbEffs)
    else if job.state ≠ "error" then
      let detail := (recentLines.getLast?).getD "No additional output from Blender."
      let msg := "Blender rendering failed (code " ++ toString returnCode
        ++ "). Last line: " ++ detail
      let dbEffs := if job.userId.isSome then [Effect.dbUpdate] else []
      ({ job with state := "error", message := msg, etaSeconds := none }, dbEffs)
    else (job, [])
  -- `if job.get("state") == "error": shutil.rmtree(workdir); cleanup_done`
  let step2 : Job × List Effect :=
    if step.1.state = "error" then
      ({ step.1 with cleanupDone := true }, step.2 ++ [Effect.rmWorkdir])
    else step
  (step2.1, step2.2 ++ [Effect.popProcess])

/-- The job-dict update performed by `cancel_job` (server.py): state
`cancelled`, progress kept, ETA discarded, cleanup flagged done. -/
def cancelUpdate (job : Job) : Job :=
  { job with
      state := "cancelled",
      message := "Render cancelled by user.",
      etaSeconds := none,
      cleanupDone := true }

/-- Outcome of the `/cancel/<job_id>` route. -/
inductive CancelResult where
  | notFound
  | notRunning
  | cancelled
  deriving DecidableEq

/-- `cancel_job` (server.py): 404 when unknown, 400 unless `running`;
otherwise terminate/kill the process, drop the handle, delete the
workspace, and rewrite the job as cancelled. -/
def cancel_job (job : Option Job) (hasProcess : Bool) (workdirExists : Bool) :
    CancelResult × Option Job × List Effect :=
  match job with
  | none => (CancelResult.notFound, none, [])
  | some j =>
    if j.state ≠ "running" then (CancelResult.notRunning, some j, [])
    else
      let procEffs :=
        if hasProcess then [Effect.terminateProcess, Effect.popProcess] else []
      let wdEffs := if workdirExists then [Effect.rmWorkdir] else []
      (CancelResult.cancelled, some (cancelUpdate j), procEffs ++ wdEffs)

/-! ## Submission (`render_page`, POST) -/

/-- CPython `PurePath.suffix`: find the last dot in the name; the suffix is
the substring from that dot when the dot is neither the first nor the last
character. -/
def pyRFindDot (cs : List Char) : Option ℕ :=
  match cs.reverse.findIdx? (fun c => c == '.') with
  | none => none
  | some k => some (cs.length - 1 - k)

/-- `Path(filename).suffix` for a bare file name (the upload's name has
already been flattened by `secure_filename`, so it has no separators). -/
def pySuffix (name : String) : String :=
  match pyRFindDot name.data with
  | none => ""
  | some i =>
      if 0 < i ∧ i < name.data.length - 1 then ⟨name.data.drop i⟩ else ""

/-- Python `str.lower()` on ASCII text. -/
def pyLower (s : String) : String := ⟨s.data.map Char.toLower⟩

/-- `allowed_file` (server.py): `Path(filename).suffix.lower() in {".stl"}`. -/
def allowed_file (filename : String) : Bool :=
  pyLower (pySuffix filename) == ".stl"

/-- The inputs of one POST to `/render` that the orchestration control flow
reads: upload presence and (secured) name, saved size, whether the requester
is authenticated, the owner's count of `running` renders in the database,
and whether a Blender executable can be resolved.  (The remaining form
fields — axis, quality, resolution, … — are clamped to defaults and only
feed the subprocess argument list.) -/
structure SubmitReq where
  hasFile : Bool
  filename : String
  stlSize : ℕ
  authenticated : Bool
  runningCount : ℕ
  blenderFound : Bool
  deriving DecidableEq

/-- Outcome of a POST to `/render`, tagged with its HTTP status code. -/
inductive SubmitOutcome where
  | badInput (httpCode : ℕ)
  | capacityExceeded (httpCode : ℕ)
  | execNotFound (httpCode : ℕ)
  | accepted (httpCode : ℕ)
  deriving DecidableEq

/-- The POST branch of `render_page` (server.py): file checks, then
`tempfile.mkdtemp` + upload save, then the size check, then the per-owner
concurrent-render ceiling (`MAX_CONCURRENT_RENDERS = 5`, only for
authenticated users), then Blender resolution, then launch and
registration.  Every failure after the workspace was made removes it. -/
def render_page_post (r : SubmitReq) : SubmitOutcome × List Effect :=
  if ¬ r.hasFile ∨ r.filename = "" then (SubmitOutcome.badInput 400, [])
  else if ¬ allowed_file r.filename then (SubmitOutcome.badInput 400, [])
  else
    let e0 := [Effect.mkWorkdir, Effect.saveUpload]
    if r.stlSize > 100 * 1024 * 1024 then
      (SubmitOutcome.badInput 400, e0 ++ [Effect.rmWorkdir])
    else if r.authenticated ∧ 5 ≤ r.runningCount then
      (SubmitOutcome.capacityExceeded 429, e0 ++ [Effect.rmWorkdir])
    else if ¬ r.blenderFound then
      (SubmitOutcome.execNotFound 500, e0 ++ [Effect.rmWorkdir])
    else
      (SubmitOutcome.accepted 202,
        e0 ++ [Effect.launchBlender]
          ++ (if r.authenticated then [Effect.dbUpdate] else [])
          ++ [Effect.registerJob, Effect.registerProcess, Effect.startMonitor])

/-- An authenticated owner with 5 renders already running submitting a small
valid STL file. -/
def reqAtCapacity : SubmitReq :=
  { hasFile := true, filename := "model.stl", stlSize := 1024,
    authenticated := true, runningCount := 5, blenderFound := true }

/-! ## Status query (`job_status`) -/

/-- The view of a durable render record the status route reads. -/
structure DbRenderView where
  state : String
  message : Option String
  progress : Option ℚ
  deriving DecidableEq

/-- The status-route response payload (HTTP code and JSON fields). -/
structure StatusResp where
  httpCode : ℕ
  state : String
  message : String
  progress : ℚ
  etaSeconds : Option ℚ
  deriving DecidableEq

/-- `job_status` (server.py): the `/status/<job_id>` route.  A
database-backed record answers first; otherwise the in-memory job answers,
after the lazy error-workspace cleanup, applying the query-time ETA
refinement for running jobs.  (`job.get("last_frame_index") is not None`
always holds — the job map stores an int there from creation — and a stored
`eta_seconds` of `None` together with a recorded average frame time cannot
occur, since the monitor records both in the same branch; `getD 0` stands in
for Python's `job.get("eta_seconds", 0.0)` in that unreachable corner.) -/
def job_status (dbRecord : Option DbRenderView) (job : Option Job)
    (now : ℚ) : StatusResp × Option Job × List Effect :=
  match dbRecord with
  | some r =>
      ({ httpCode := 200, state := r.state, message := r.message.getD "",
         progress := r.progress.getD 0, etaSeconds := none }, job, [])
  | none =>
    match job with
    | none =>
        ({ httpCode := 404, state := "unknown", message := "Job not found.",
           progress := 0, etaSeconds := none }, none, [])
    | some j0 =>
      let cleanup := j0.state = "error" ∧ j0.cleanupDone = false
      let j := if cleanup then { j0 with cleanupDone := true } else j0
      let effs := if cleanup then [Effect.rmWorkdir] else ([] : List Effect)
      let eta :=
        if j.state = "running" then
          if pyTruthyQ j.avgFrameTime ∧ pyTruthyQ j.lastFrameTimestamp
              ∧ j.totalFrames ≠ 0 then
            let avg := j.avgFrameTime.getD 0
            let lastTs := j.lastFrameTimestamp.getD 0
            let baseEta := j.etaSeconds.getD 0
            let currentFrameTime := now - lastTs
            if currentFrameTime > avg * (3 / 2 : ℚ) then
              some (max 0 (baseEta + (currentFrameTime - avg) * (1 / 2 : ℚ)))
            else some baseEta
          else if j.startedAt ≠ 0 ∧ j.progress > 0 then
            let elapsed := max 0 (now - j.startedAt)
            some (max 0 (elapsed * (100 - j.progress) / j.progress))
          else j.etaSeconds
        else j.etaSeconds
      ({ httpCode := 200, state := j.state, message := j.message,
         progress := j.progress, etaSeconds := eta }, some j, effs)

/-! ## Concrete sample artifacts -/

/-- A monitor configuration with 10 total frames. -/
def cfgTen : MonCfg := { totalFrames := 10, axis0 := "Z" }

/-- A freshly registered anonymous job, as `render_page` stores it in
`ACTIVE_JOBS` (state `running`, zero progress, no ETA, no cleanup flag). -/
def sampleJob : Job :=
  { state := "running"
    message := "Launching Blender (Ultra, auto orientation)…"
    progress := 0
    etaSeconds := none
    outputPath := "/tmp/bellarue_a1/turntable.mp4"
    blenderOutputPath := "/tmp/bellarue_a1/turntable_base.mp4"
    workdir := "/tmp/bellarue_a1"
    axis := "Z"
    offset := 0
    startedAt := 1000
    totalFrames := 10
    lastFrameIndex := 0
    lastFrameTimestamp := none
    avgFrameTime := none
    needsInterpolation := true
    finalFps := 25
    userId := none
    cleanupDone := false }

/-- Monitor-local state after four 1-second frames (durations `[1,1,1,1]`,
last frame 4 observed at time 100). -/
def loc4 : MonitorLocal :=
  { recentLines := [], frameDurations := [1, 1, 1, 1],
    lastFrameIndex := some 4, lastFrameTimestamp := some 100 }

/-- The same job owned by user 1 (a durable record exists for it). -/
def sampleOwnedJob : Job := { sampleJob with userId := some 1 }

/-- A running job mid-render: progress 50, stored ETA 10 s, average frame
time 2 s, frame 5 last observed at time 100. -/
def sampleStatusJob : Job :=
  { sampleJob with
      progress := 50, etaSeconds := some 10, avgFrameTime := some 2,
      lastFrameTimestamp := some 100, lastFrameIndex := 5 }

/-- A job the monitor marked `error` before its lazy cleanup ran.
(The monitor itself sets `cleanup_done` on its own error path; this state
arises when the stream-reader exception handler marked the job while the
monitor thread is still blocked in `process.wait()`.) -/
def sampleErrorJob : Job := { sampleJob with state := "error" }

/-! ## Structural lemmas about the monitor -/

theorem handleFrame_progress (cfg : MonCfg) (job : Job) (loc : MonitorLocal)
    (frame : ℕ) (now : ℚ) :
    (handleFrame cfg job loc frame now).1.progress
      = pyClamp (100 * (frame : ℚ) / (cfg.totalFrames : ℚ)) := by
  have harith : (frame : ℚ) / (cfg.totalFrames : ℚ) * 100
      = 100 * (frame : ℚ) / (cfg.totalFrames : ℚ) := by ring
  simp only [handleFrame]
  split <;> simp [pyClamp, harith]

theorem handleFrame_frameDurations (cfg : MonCfg) (job : Job)
    (loc : MonitorLocal) (frame : ℕ) (now : ℚ) :
    (handleFrame cfg job loc frame now).2.frameDurations
      = updatedDurations loc frame now := by
  simp only [handleFrame]
  split <;> rfl

theorem handleFrame_lastFrameTimestamp (cfg : MonCfg) (job : Job)
    (loc : MonitorLocal) (frame : ℕ) (now : ℚ) :
    (handleFrame cfg job loc frame now).2.lastFrameTimestamp = some now := by
  simp only [handleFrame]
  split <;> rfl

theorem elapsedOnCurrentFrame_after (cfg : MonCfg) (job : Job)
    (loc : MonitorLocal) (frame : ℕ) (now : ℚ) :
    elapsedOnCurrentFrame (handleFrame cfg job loc frame now).2 now = 0 := by
  unfold elapsedOnCurrentFrame
  rw [handleFrame_lastFrameTimestamp]
  simp

theorem handleFrame_eta_of_ge (cfg : MonCfg) (job : Job) (loc : MonitorLocal)
    (frame : ℕ) (now : ℚ)
    (h : 5 ≤ (updatedDurations loc frame now).length) :
    (handleFrame cfg job loc frame now).1.etaSeconds
      = some (max 0 ((weightedFrameAvg (lastN 20 (updatedDurations loc frame now))
          * ((max 0 ((cfg.totalFrames : ℤ) - (frame : ℤ)) : ℤ) : ℚ)
          + elapsedOnCurrentFrame (handleFrame cfg job loc frame now).2 now)
          * (5 / 4 : ℚ))) := by
  rw [elapsedOnCurrentFrame_after]
  simp only [handleFrame]
  rw [if_pos (by exact h)]
  simp [elapsedOnCurrentFrame]

theorem handleFrame_eta_of_lt (cfg : MonCfg) (job : Job) (loc : MonitorLocal)
    (frame : ℕ) (now : ℚ)
    (h : (updatedDurations loc frame now).length < 5) :
    (handleFrame cfg job loc frame now).1.etaSeconds = none := by
  simp only [handleFrame]
  rw [if_neg (by omega)]

theorem monitorLine_progress (cfg : MonCfg) (s : Job × MonitorLocal)
    (raw : String) (t : ℚ) (f : ℕ) (h : parsedFrame raw = some f) :
    (monitorLine cfg s (raw, t)).1.progress
      = pyClamp (100 * (f : ℚ) / (cfg.totalFrames : ℚ)) := by
  unfold parsedFrame at h
  simp only [monitorLine]
  by_cases h1 : pyStrip raw = ""
  · rw [if_pos h1] at h; cases h
  · rw [if_neg h1] at h
    rw [if_neg h1]
    by_cases h2 : pyStartsWith (pyStrip raw) "[AUTO]" = true
    · rw [if_pos h2] at h; cases h
    · rw [if_neg h2] at h
      rw [if_neg h2]
      by_cases h3 : pyStartsWith (pyStrip raw) "Fra:" = true
      · rw [if_pos h3] at h
        rw [if_pos h3, h]
        exact handleFrame_progress ..
      · rw [if_neg h3] at h; cases h

theorem runMonitor_take_succ (cfg : MonCfg) (init : Job × MonitorLocal)
    (evs : List (String × ℚ)) (k : ℕ) (hk : k < evs.length) :
    runMonitor cfg init (evs.take (k + 1))
      = monitorLine cfg (runMonitor cfg init (evs.take k)) (evs.get ⟨k, hk⟩) := by
  unfold runMonitor
  rw [List.take_succ, List.getElem?_eq_getElem hk]
  rw [Option.toList_some, List.foldl_append, List.foldl_cons, List.foldl_nil]
  rfl

theorem applyAuto_etaSeconds (j : Job) (l : String) :
    (applyAuto j l).etaSeconds = j.etaSeconds := by
  unfold applyAuto
  rcases autoPairs l with _ | ps
  · rfl
  · dsimp only
    rcases lookupLast ps "axis" with _ | a <;>
      rcases lookupLast ps "offset" with _ | o <;>
      dsimp only <;>
      try rfl
    all_goals rcases pyFloat o with _ | q <;> rfl

theorem handleFrame_etaInv (cfg : MonCfg) (job : Job) (loc : MonitorLocal)
    (frame : ℕ) (now : ℚ) : etaInv (handleFrame cfg job loc frame now) := by
  unfold etaInv
  rcases le_or_lt 5 (updatedDurations loc frame now).length with h | h
  · rw [handleFrame_eta_of_ge cfg job loc frame now h, handleFrame_frameDurations]
    constructor
    · simp
      omega
    · intro e he
      rw [Option.some_inj] at he
      rw [← he]
      exact le_max_left 0 _
  · rw [handleFrame_eta_of_lt cfg job loc frame now h, handleFrame_frameDurations]
    simp [h]

theorem monitorLine_etaInv (cfg : MonCfg) (s : Job × MonitorLocal)
    (ev : String × ℚ) (h : etaInv s) : etaInv (monitorLine cfg s ev) := by
  obtain ⟨h1, h2⟩ := h
  simp only [monitorLine]
  by_cases hb : pyStrip ev.1 = ""
  · rw [if_pos hb]; exact ⟨h1, h2⟩
  · rw [if_neg hb]
    by_cases ha : pyStartsWith (pyStrip ev.1) "[AUTO]" = true
    · rw [if_pos ha]
      refine ⟨?_, ?_⟩
      · show (applyAuto _ _).etaSeconds = none ↔ _
        rw [applyAuto_etaSeconds]
        exact h1
      · intro e he
        rw [show ((applyAuto _ _, _) : Job × MonitorLocal).1.etaSeconds
            = (applyAuto _ _).etaSeconds from rfl, applyAuto_etaSeconds] at he
        exact h2 e he
    · rw [if_neg ha]
      by_cases hf : pyStartsWith (pyStrip ev.1) "Fra:" = true
      · rw [if_pos hf]
        cases hd : firstDigitToken (pyStrip ev.1)
        · exact ⟨h1, h2⟩
        · exact handleFrame_etaInv ..
      · rw [if_neg hf]
        exact ⟨h1, h2⟩

theorem runMonitor_etaInv (cfg : MonCfg) (init : Job × MonitorLocal)
    (evs : List (String × ℚ)) (h : etaInv init) :
    etaInv (runMonitor cfg init evs) := by
  induction evs generalizing init with
  | nil => exact h
  | cons e es ih => exact ih (monitorLine cfg init e) (monitorLine_etaInv cfg init e h)

theorem pyClamp_mono {a b : ℚ} (h : a ≤ b) : pyClamp a ≤ pyClamp b :=
  min_le_min (le_refl 100) (max_le_max (le_refl 0) h)

theorem progressAfter_parsed (cfg : MonCfg) (init : Job × MonitorLocal)
    (evs : List (String × ℚ)) (fs : ℕ → ℕ)
    (hparse : ∀ i (hi : i < evs.length), parsedFrame (evs.get ⟨i, hi⟩).1 = some (fs i))
    (k : ℕ) (hk : k < evs.length) :
    progressAfter cfg init evs (k + 1)
      = pyClamp (100 * (fs k : ℚ) / (cfg.totalFrames : ℚ)) := by
  unfold progressAfter
  rw [runMonitor_take_succ cfg init evs k hk]
  have h := hparse k hk
  rw [show evs.get ⟨k, hk⟩ = ((evs.get ⟨k, hk⟩).1, (evs.get ⟨k, hk⟩).2) from rfl]
  exact monitorLine_progress cfg _ _ _ _ h

theorem progressAfter_mono_of_parsed (cfg : MonCfg) (hT : 0 < cfg.totalFrames)
    (init : Job × MonitorLocal) (evs : List (String × ℚ)) (fs : ℕ → ℕ)
    (hparse : ∀ i (hi : i < evs.length), parsedFrame (evs.get ⟨i, hi⟩).1 = some (fs i))
    (k1 k2 : ℕ) (h12 : k1 ≤ k2) (hk2 : k2 < evs.length) (hf : fs k1 ≤ fs k2) :
    progressAfter cfg init evs (k1 + 1) ≤ progressAfter cfg init evs (k2 + 1) := by
  have hk1 : k1 < evs.length := lt_of_le_of_lt h12 hk2
  rw [progressAfter_parsed cfg init evs fs hparse k1 hk1,
      progressAfter_parsed cfg init evs fs hparse k2 hk2]
  apply pyClamp_mono
  have hT' : (0 : ℚ) < (cfg.totalFrames : ℚ) := by exact_mod_cast hT
  have hf' : ((fs k1 : ℕ) : ℚ) ≤ ((fs k2 : ℕ) : ℚ) := by exact_mod_cast hf
  have hnum : (100 : ℚ) * (fs k1 : ℚ) ≤ 100 * (fs k2 : ℚ) := by
    nlinarith
  exact div_le_div_of_nonneg_right hnum hT'.le

/-! ## Claims about the ETA estimator and progress parsing -/

/-- **C2.** Once at least 5 inter-frame durations are recorded, the ETA the
monitor stores after a frame observation is
`max(0, (avg · frames_remaining + elapsed_on_current_frame) · 1.25)` with
`avg` the linearly recency-weighted mean of the most recent ≤ 20 durations —
and the elapsed time on the current frame is always `0` at that point,
because the code reads `last_frame_timestamp` just after setting it to `now`.
In particular, for durations `[1,1,1,1,1]`, `total_frames = 10`, last frame 5
and zero elapsed time, `avg = 1` and `eta_seconds = 6.25`. -/
theorem C2_eta_formula (cfg : MonCfg) (job : Job) (loc : MonitorLocal)
    (frame : ℕ) (now : ℚ)
    (h5 : 5 ≤ (handleFrame cfg job loc frame now).2.frameDurations.length) :
    ((handleFrame cfg job loc frame now).1.etaSeconds
      = some (max 0
          ((weightedFrameAvg (lastN 20 (handleFrame cfg job loc frame now).2.frameDurations)
              * ((max 0 ((cfg.totalFrames : ℤ) - (frame : ℤ)) : ℤ) : ℚ)
            + elapsedOnCurrentFrame (handleFrame cfg job loc frame now).2 now)
            * (5 / 4 : ℚ)))
      ∧ elapsedOnCurrentFrame (handleFrame cfg job loc frame now).2 now = 0)
    ∧ weightedFrameAvg [1, 1, 1, 1, 1] = 1
    ∧ (handleFrame cfgTen sampleJob loc4 5 101).2.frameDurations = [1, 1, 1, 1, 1]
    ∧ (handleFrame cfgTen sampleJob loc4 5 101).1.etaSeconds = some (25 / 4 : ℚ) := by
  rw [handleFrame_frameDurations] at h5
  have havg : weightedFrameAvg [1, 1, 1, 1, 1] = 1 := by
    have hr : List.range 5 = [0, 1, 2, 3, 4] := rfl
    simp [weightedFrameAvg, hr]
    norm_num
  have hdur : updatedDurations loc4 5 101 = [1, 1, 1, 1, 1] := by
    norm_num [updatedDurations, loc4]
  refine ⟨⟨?_, elapsedOnCurrentFrame_after ..⟩, havg, ?_, ?_⟩
  · rw [handleFrame_frameDurations, handleFrame_eta_of_ge cfg job loc frame now h5,
      elapsedOnCurrentFrame_after]
  · rw [handleFrame_frameDurations, hdur]
  · have h5' : 5 ≤ (updatedDurations loc4 5 101).length := by rw [hdur]; norm_num
    rw [handleFrame_eta_of_ge cfgTen sampleJob loc4 5 101 h5',
      elapsedOnCurrentFrame_after, hdur]
    rw [show lastN 20 [(1 : ℚ), 1, 1, 1, 1] = [1, 1, 1, 1, 1] from rfl, havg]
    norm_num [cfgTen]

/-- **C3.** For any sequence of frame-progress lines with strictly increasing
frame indices delivered to the monitor of a job with positive `total_frames`,
after each line the progress equals `100 · frame / total_frames` clamped to
`[0, 100]` (the frame being the first whitespace-delimited all-digit token
after replacing `:` with a space), and the progress values are
non-decreasing across the sequence. -/
theorem C3_progress_formula (cfg : MonCfg) (hT : 0 < cfg.totalFrames)
    (init : Job × MonitorLocal) (evs : List (String × ℚ)) (fs : ℕ → ℕ)
    (hparse : ∀ i (hi : i < evs.length), parsedFrame (evs.get ⟨i, hi⟩).1 = some (fs i))
    (hmono : ∀ i j, i < j → j < evs.length → fs i < fs j) :
    (∀ k (hk : k < evs.length),
        progressAfter cfg init evs (k + 1)
          = pyClamp (100 * (fs k : ℚ) / (cfg.totalFrames : ℚ)))
    ∧ (∀ k1 k2, k1 ≤ k2 → k2 < evs.length →
        progressAfter cfg init evs (k1 + 1) ≤ progressAfter cfg init evs (k2 + 1)) := by
  refine ⟨fun k hk => progressAfter_parsed cfg init evs fs hparse k hk, ?_⟩
  intro k1 k2 h12 hk2
  have hf : fs k1 ≤ fs k2 := by
    rcases lt_or_eq_of_le h12 with h | h
    · exact (hmono k1 k2 h hk2).le
    · rw [h]
  exact progressAfter_mono_of_parsed cfg hT init evs fs hparse k1 k2 h12 hk2 hf

/-- **C4 counterexample.** Out-of-order delivery regresses progress: with
`total_frames = 10`, delivering `Fra:5` and then `Fra:3` moves progress from
`50` down to `30`, so the progress value does decrease across updates,
contrary to the claim. -/
theorem C4_counterexample :
    progressAfter cfgTen (sampleJob, monitorInit)
        [("Fra:5 Mem:8.00M", 100), ("Fra:3 Mem:8.10M", 101)] 1 = 50
    ∧ progressAfter cfgTen (sampleJob, monitorInit)
        [("Fra:5 Mem:8.00M", 100), ("Fra:3 Mem:8.10M", 101)] 2 = 30
    ∧ progressAfter cfgTen (sampleJob, monitorInit)
        [("Fra:5 Mem:8.00M", 100), ("Fra:3 Mem:8.10M", 101)] 2
      < progressAfter cfgTen (sampleJob, monitorInit)
        [("Fra:5 Mem:8.00M", 100), ("Fra:3 Mem:8.10M", 101)] 1 := by
  have hparse : ∀ i (hi : i < ([("Fra:5 Mem:8.00M", (100 : ℚ)), ("Fra:3 Mem:8.10M", 101)]).length),
      parsedFrame ((([("Fra:5 Mem:8.00M", (100 : ℚ)), ("Fra:3 Mem:8.10M", 101)]).get ⟨i, hi⟩).1)
        = some (if i = 0 then 5 else 3) := by
    intro i hi
    rcases i with _ | _ | i
    · show parsedFrame "Fra:5 Mem:8.00M" = some 5
      decide
    · show parsedFrame "Fra:3 Mem:8.10M" = some 3
      decide
    · simp only [List.length_cons, List.length_nil] at hi
      omega
  have e1 := progressAfter_parsed cfgTen (sampleJob, monitorInit)
    [("Fra:5 Mem:8.00M", 100), ("Fra:3 Mem:8.10M", 101)]
    (fun i => if i = 0 then 5 else 3) hparse 0 (by norm_num)
  have e2 := progressAfter_parsed cfgTen (sampleJob, monitorInit)
    [("Fra:5 Mem:8.00M", 100), ("Fra:3 Mem:8.10M", 101)]
    (fun i => if i = 0 then 5 else 3) hparse 1 (by norm_num)
  rw [e1, e2]
  norm_num [pyClamp, cfgTen, min_def, max_def]

/-- **C4 (amended).** For frame-progress lines whose frame indices are
non-decreasing (in-order delivery), progress never decreases; the code
assigns the clamped value of whatever frame arrives, so a smaller
out-of-order frame index lowers progress (see the counterexample). -/
theorem C4_amended_monotone (cfg : MonCfg) (hT : 0 < cfg.totalFrames)
    (init : Job × MonitorLocal) (evs : List (String × ℚ)) (fs : ℕ → ℕ)
    (hparse : ∀ i (hi : i < evs.length), parsedFrame (evs.get ⟨i, hi⟩).1 = some (fs i))
    (hmono : ∀ i j, i ≤ j → j < evs.length → fs i ≤ fs j) :
    ∀ k1 k2, k1 ≤ k2 → k2 < evs.length →
      progressAfter cfg init evs (k1 + 1) ≤ progressAfter cfg init evs (k2 + 1) := by
  intro k1 k2 h12 hk2
  exact progressAfter_mono_of_parsed cfg hT init evs fs hparse k1 k2 h12 hk2
    (hmono k1 k2 h12 hk2)

/-- **C7.** Starting from a fresh job (no ETA recorded) and fresh
monitor-local state, after any sequence of monitored lines the job's
`eta_seconds` is `None` exactly while fewer than 5 inter-frame durations have
been recorded, and any recorded estimate is non-negative. -/
theorem C7_eta_cold_start (cfg : MonCfg) (job0 : Job)
    (h0 : job0.etaSeconds = none) (evs : List (String × ℚ)) :
    ((runMonitor cfg (job0, monitorInit) evs).1.etaSeconds = none
      ↔ (runMonitor cfg (job0, monitorInit) evs).2.frameDurations.length < 5)
    ∧ ∀ e, (runMonitor cfg (job0, monitorInit) evs).1.etaSeconds = some e → 0 ≤ e := by
  refine runMonitor_etaInv cfg (job0, monitorInit) evs ⟨?_, ?_⟩
  · show job0.etaSeconds = none ↔ monitorInit.frameDurations.length < 5
    simp [h0, monitorInit]
  · intro e he
    rw [show ((job0, monitorInit) : Job × MonitorLocal).1.etaSeconds
        = job0.etaSeconds from rfl, h0] at he
    cases he

theorem isStartOf_of_append (p s t : List Char) (h : isStartOf p s = true) :
    isStartOf p (s ++ t) = true := by
  induction p generalizing s with
  | nil => rfl
  | cons a as ih =>
    cases s with
    | nil => cases h
    | cons b bs =>
      simp only [isStartOf, List.cons_append, Bool.and_eq_true] at h ⊢
      exact ⟨h.1, ih bs h.2⟩

theorem pyStartsWith_append (s t p : String) (h : pyStartsWith s p = true) :
    pyStartsWith (s ++ t) p = true := by
  unfold pyStartsWith at h ⊢
  rw [String.data_append]
  exact isStartOf_of_append _ _ _ h

/-! ## Claims about the terminal transition -/

/-- **C1 (exhibits the defect).** Cancelling the running job puts it in
state `cancelled` (and deletes the workspace).  When the monitor thread then
observes end-of-stream and the kill's non-zero exit code, the finally-block
guard `job.get("state") != "error"` does not recognise the cancelled state:
it rewrites the job to `error` and repeats the workspace deletion — a second
terminal transition, contradicting the claim that the terminal transition
happens exactly once and that the state stays `cancelled`. -/
theorem C1_cancel_monitor_collision :
    (cancel_job (some sampleJob) true true).2.1 = some (cancelUpdate sampleJob)
    ∧ (cancelUpdate sampleJob).state = "cancelled"
    ∧ (finalizeJob (cancelUpdate sampleJob) (-15) false 0 true true
        ["Killed"]).1.state = "error"
    ∧ Effect.rmWorkdir
        ∈ (finalizeJob (cancelUpdate sampleJob) (-15) false 0 true true
            ["Killed"]).2 := by
  decide

/-- **C5.** A job whose renderer exits with code 0 and whose primary
artifact exists, but whose configured frame-rate-conversion step is invoked
and whose encoder exits non-zero, ends in state `error` (not `finished`),
with a message recording the post-processing failure. -/
theorem C5_postprocess_failure (job : Job) (ffc : ℤ) (moveOk copyOk : Bool)
    (recentLines : List String)
    (hni : job.needsInterpolation = true) (hfps : 0 < job.finalFps)
    (hffc : ffc ≠ 0) :
    (finalizeJob job 0 true ffc moveOk copyOk recentLines).1.state = "error"
    ∧ (finalizeJob job 0 true ffc moveOk copyOk recentLines).1.state ≠ "finished"
    ∧ pyStartsWith (finalizeJob job 0 true ffc moveOk copyOk recentLines).1.message
        "Post-processing failed:" = true := by
  have hatt : interpolateVideo job.finalFps ffc moveOk
      = Except.error ("FFmpeg interpolation failed (" ++ toString ffc ++ ").") := by
    unfold interpolateVideo
    rw [if_neg (by omega), if_pos hffc]
  unfold finalizeJob
  rw [if_pos (show (0 : ℤ) = 0 ∧ (true : Bool) = true by simp), hni]
  simp only [ite_true, if_pos rfl, hatt]
  refine ⟨by simp, by simp, ?_⟩
  exact pyStartsWith_append "Post-processing failed: " _ "Post-processing failed:"
    (by decide)

/-- **C6.** For an owned job whose renderer exits with code 0, whose
artifact exists, and whose post-processing (if any) succeeds, a failure
while copying the final artifact into persistent storage does not change the
terminal outcome: the job still finishes with progress 100 and ETA 0. -/
theorem C6_copy_failure_still_finished (job : Job) (ffc : ℤ) (moveOk : Bool)
    (recentLines : List String) (effs : List Effect)
    (hu : job.userId.isSome = true)
    (hpost : (if job.needsInterpolation then
          interpolateVideo job.finalFps ffc moveOk
        else if job.blenderOutputPath ≠ job.outputPath then
          (if moveOk then Except.ok [Effect.moveArtifact]
           else Except.error "move failed")
        else Except.ok []) = Except.ok effs) :
    (finalizeJob job 0 true ffc moveOk false recentLines).1.state = "finished"
    ∧ (finalizeJob job 0 true ffc moveOk false recentLines).1.progress = 100
    ∧ (finalizeJob job 0 true ffc moveOk false recentLines).1.etaSeconds = some 0
    ∧ Effect.copyToStorage
        ∈ (finalizeJob job 0 true ffc moveOk false recentLines).2 := by
  unfold finalizeJob
  rw [if_pos (show (0 : ℤ) = 0 ∧ (true : Bool) = true by simp)]
  cases hni : job.needsInterpolation with
  | true =>
      rw [hni] at hpost
      simp only [ite_true] at hpost ⊢
      rw [hpost]
      simp [hu]
  | false =>
      rw [hni] at hpost
      simp only [ite_false] at hpost ⊢
      rw [hpost]
      simp [hu]

/-- **C8 counterexample.** At the per-owner ceiling the submission does fail
with the capacity error — but a workspace IS created: the upload's temporary
directory is made (and then removed) before the quota check runs, so the
claim's "no workspace is created" is false at this input. -/
theorem C8_counterexample :
    (render_page_post reqAtCapacity).1 = SubmitOutcome.capacityExceeded 429
    ∧ Effect.mkWorkdir ∈ (render_page_post reqAtCapacity).2 := by
  decide

/-- **C8 (amended).** A submission by an authenticated owner at or above the
ceiling of 5 running renders fails with the capacity error (HTTP 429); no
renderer subprocess is launched and no process handle is registered, and the
temporary workspace created to receive the upload is deleted before the
error returns (the effect trace is exactly create, save, delete).  Anonymous
submissions are never subject to the ceiling. -/
theorem C8_amended_capacity (r : SubmitReq) :
    (r.hasFile = true → r.filename ≠ "" → allowed_file r.filename = true →
      r.stlSize ≤ 100 * 1024 * 1024 → r.authenticated = true →
      5 ≤ r.runningCount →
      (render_page_post r).1 = SubmitOutcome.capacityExceeded 429
      ∧ (render_page_post r).2
          = [Effect.mkWorkdir, Effect.saveUpload, Effect.rmWorkdir]
      ∧ Effect.launchBlender ∉ (render_page_post r).2
      ∧ Effect.registerProcess ∉ (render_page_post r).2)
    ∧ (r.authenticated = false →
        ∀ c, (render_page_post r).1 ≠ SubmitOutcome.capacityExceeded c) := by
  constructor
  · intro hf hn ha hsz hauth hcount
    have h1 : ¬ (¬ r.hasFile ∨ r.filename = "") := by
      rw [hf]; simp [hn]
    have h2 : ¬ ¬ allowed_file r.filename = true := by simp [ha]
    have h3 : ¬ r.stlSize > 100 * 1024 * 1024 := by omega
    have h4 : r.authenticated = true ∧ 5 ≤ r.runningCount := ⟨hauth, hcount⟩
    unfold render_page_post
    rw [if_neg h1, if_neg h2, if_neg h3, if_pos h4]
    refine ⟨rfl, rfl, by decide, by decide⟩
  · intro hanon c
    have h4 : ¬ (r.authenticated = true ∧ 5 ≤ r.runningCount) := by
      rw [hanon]; rintro ⟨h, -⟩; exact absurd h (by decide)
    unfold render_page_post
    by_cases h1 : (¬ r.hasFile ∨ r.filename = "")
    · rw [if_pos h1]; simp
    · rw [if_neg h1]
      by_cases h2 : ¬ allowed_file r.filename = true
      · rw [if_pos h2]; simp
      · rw [if_neg h2]
        by_cases h3 : r.stlSize > 100 * 1024 * 1024
        · rw [if_pos h3]; simp
        · rw [if_neg h3, if_neg h4]
          by_cases h5 : ¬ r.blenderFound = true
          · rw [if_pos h5]; simp
          · rw [if_neg h5]; simp

/-- **C9.** For a status query on a running in-memory job with a recorded
(nonzero) average frame time, last frame timestamp, and total frames, and a
stored Monitor ETA `e`: when the elapsed time on the current frame exceeds
1.5× the average, the returned `eta_seconds` is
`max(0, e + (elapsed − avg) · 0.5)`; otherwise the stored value is returned
unchanged. -/
theorem C9_eta_refinement (j : Job) (now avg ts e : ℚ)
    (hs : j.state = "running")
    (ha : j.avgFrameTime = some avg) (ha0 : avg ≠ 0)
    (ht : j.lastFrameTimestamp = some ts) (ht0 : ts ≠ 0)
    (htf : j.totalFrames ≠ 0)
    (he : j.etaSeconds = some e) :
    (now - ts > avg * (3 / 2 : ℚ) →
      (job_status none (some j) now).1.etaSeconds
        = some (max 0 (e + ((now - ts) - avg) * (1 / 2 : ℚ))))
    ∧ (¬ now - ts > avg * (3 / 2 : ℚ) →
      (job_status none (some j) now).1.etaSeconds = some e) := by
  have hcl : ¬ (j.state = "error" ∧ j.cleanupDone = false) := by
    rw [hs]; rintro ⟨h, -⟩; exact absurd h (by decide)
  have htr : pyTruthyQ j.avgFrameTime ∧ pyTruthyQ j.lastFrameTimestamp
      ∧ j.totalFrames ≠ 0 := by
    rw [ha, ht]
    exact ⟨by simp [pyTruthyQ, ha0], by simp [pyTruthyQ, ht0], htf⟩
  simp only [job_status]
  rw [if_neg hcl]
  rw [if_pos hs, if_pos htr, ha, ht, he]
  simp only [Option.getD_some]
  constructor
  · intro hgt
    rw [if_pos hgt]
  · intro hng
    rw [if_neg hng]

/-- **C10.** The status query is not read-only: querying an in-memory job in
state `error` whose cleanup has not yet run deletes the job's workspace and
marks cleanup done, leaving every other field unchanged; a second query on
the updated job performs no further deletion and leaves the job as it is. -/
theorem C10_status_cleanup (j : Job) (now now2 : ℚ)
    (hs : j.state = "error") (hc : j.cleanupDone = false) :
    (job_status none (some j) now).2.1 = some { j with cleanupDone := true }
    ∧ (job_status none (some j) now).2.2 = [Effect.rmWorkdir]
    ∧ (job_status none (some { j with cleanupDone := true }) now2).2.1
        = some { j with cleanupDone := true }
    ∧ (job_status none (some { j with cleanupDone := true }) now2).2.2 = [] := by
  have hcl : j.state = "error" ∧ j.cleanupDone = false := ⟨hs, hc⟩
  have hcl2 : ¬ (({ j with cleanupDone := true } : Job).state = "error"
      ∧ ({ j with cleanupDone := true } : Job).cleanupDone = false) := by
    rintro ⟨-, h⟩; simp at h
  simp only [job_status]
  rw [if_pos hcl, if_pos hcl, if_neg hcl2, if_neg hcl2]
  exact ⟨rfl, rfl, rfl, rfl⟩

/-! ## Witnesses: the claim theorems applied at concrete inputs -/

/-- C2 at the spec's own example: after the fifth 1-second frame of a
10-frame render, the stored ETA is `6.25` seconds. -/
theorem C2_witness :
    (handleFrame cfgTen sampleJob loc4 5 101).1.etaSeconds
      = some (25 / 4 : ℚ) :=
  (C2_eta_formula cfgTen sampleJob loc4 5 101 (by
      rw [handleFrame_frameDurations]
      norm_num [updatedDurations, loc4])).2.2.2

/-- C3 applied to the two-line run `Fra:2`, `Fra:4` against 10 frames. -/
theorem C3_witness :
    progressAfter cfgTen (sampleJob, monitorInit)
        [("Fra:2 Mem:8.00M", 1), ("Fra:4 Mem:8.00M", 2)] 1
      = pyClamp (100 * ((2 : ℕ) : ℚ) / (cfgTen.totalFrames : ℚ)) := by
  have hparse : ∀ i (hi : i < ([("Fra:2 Mem:8.00M", (1 : ℚ)),
      ("Fra:4 Mem:8.00M", 2)]).length),
      parsedFrame ((([("Fra:2 Mem:8.00M", (1 : ℚ)),
          ("Fra:4 Mem:8.00M", 2)]).get ⟨i, hi⟩).1)
        = some (if i = 0 then 2 else 4) := by
    intro i hi
    rcases i with _ | _ | i
    · show parsedFrame "Fra:2 Mem:8.00M" = some 2
      decide
    · show parsedFrame "Fra:4 Mem:8.00M" = some 4
      decide
    · simp only [List.length_cons, List.length_nil] at hi
      omega
  have hmono : ∀ i j, i < j →
      j < ([("Fra:2 Mem:8.00M", (1 : ℚ)), ("Fra:4 Mem:8.00M", 2)]).length →
      (if i = 0 then 2 else 4) < (if j = 0 then 2 else 4) := by
    intro i j hij hj
    simp only [List.length_cons, List.length_nil] at hj
    have hj1 : j = 1 := by omega
    have hi0 : i = 0 := by omega
    subst hj1
    subst hi0
    norm_num
  exact (C3_progress_formula cfgTen (by decide) (sampleJob, monitorInit)
    [("Fra:2 Mem:8.00M", 1), ("Fra:4 Mem:8.00M", 2)]
    (fun i => if i = 0 then 2 else 4) hparse hmono).1 0 (by norm_num)

/-- C4 (amended) applied to the in-order run `Fra:2`, `Fra:4`. -/
theorem C4_witness :
    progressAfter cfgTen (sampleJob, monitorInit)
        [("Fra:2 Mem:8.00M", 1), ("Fra:4 Mem:8.00M", 2)] 1
      ≤ progressAfter cfgTen (sampleJob, monitorInit)
        [("Fra:2 Mem:8.00M", 1), ("Fra:4 Mem:8.00M", 2)] 2 := by
  have hparse : ∀ i (hi : i < ([("Fra:2 Mem:8.00M", (1 : ℚ)),
      ("Fra:4 Mem:8.00M", 2)]).length),
      parsedFrame ((([("Fra:2 Mem:8.00M", (1 : ℚ)),
          ("Fra:4 Mem:8.00M", 2)]).get ⟨i, hi⟩).1)
        = some (if i = 0 then 2 else 4) := by
    intro i hi
    rcases i with _ | _ | i
    · show parsedFrame "Fra:2 Mem:8.00M" = some 2
      decide
    · show parsedFrame "Fra:4 Mem:8.00M" = some 4
      decide
    · simp only [List.length_cons, List.length_nil] at hi
      omega
  have hmono : ∀ i j, i ≤ j →
      j < ([("Fra:2 Mem:8.00M", (1 : ℚ)), ("Fra:4 Mem:8.00M", 2)]).length →
      (if i = 0 then 2 else 4) ≤ (if j = 0 then 2 else 4) := by
    intro i j hij hj
    by_cases hi0 : i = 0
    · subst hi0
      by_cases hj0 : j = 0
      · subst hj0; norm_num
      · rw [if_pos rfl, if_neg hj0]; norm_num
    · have hj0 : ¬ j = 0 := by omega
      rw [if_neg hi0, if_neg hj0]
  exact C4_amended_monotone cfgTen (by decide) (sampleJob, monitorInit)
    [("Fra:2 Mem:8.00M", 1), ("Fra:4 Mem:8.00M", 2)]
    (fun i => if i = 0 then 2 else 4) hparse hmono 0 1 (by omega) (by norm_num)

/-- C5 at a concrete input: `sampleJob` needs interpolation at 25 fps and the
encoder exits 1. -/
theorem C5_witness :
    (finalizeJob sampleJob 0 true 1 true true []).1.state = "error"
    ∧ (finalizeJob sampleJob 0 true 1 true true []).1.state ≠ "finished"
    ∧ pyStartsWith (finalizeJob sampleJob 0 true 1 true true []).1.message
        "Post-processing failed:" = true :=
  C5_postprocess_failure sampleJob 1 true true [] rfl (by decide) (by decide)

/-- C6 at a concrete input: the owned job's interpolation succeeds
(encoder exit 0) but the copy into persistent storage fails. -/
theorem C6_witness :
    (finalizeJob sampleOwnedJob 0 true 0 true false []).1.state = "finished"
    ∧ (finalizeJob sampleOwnedJob 0 true 0 true false []).1.progress = 100
    ∧ (finalizeJob sampleOwnedJob 0 true 0 true false []).1.etaSeconds = some 0
    ∧ Effect.copyToStorage
        ∈ (finalizeJob sampleOwnedJob 0 true 0 true false []).2 :=
  C6_copy_failure_still_finished sampleOwnedJob 0 true []
    [Effect.ffmpegRun, Effect.unlinkIntermediate] rfl rfl

/-- C7 after a single frame line: one observation records no duration, so
the ETA is still `None`. -/
theorem C7_witness :
    (runMonitor cfgTen (sampleJob, monitorInit) [("Fra:1 Mem:8.00M", 1)]).1.etaSeconds
        = none
      ↔ (runMonitor cfgTen (sampleJob, monitorInit)
          [("Fra:1 Mem:8.00M", 1)]).2.frameDurations.length < 5 :=
  (C7_eta_cold_start cfgTen sampleJob rfl [("Fra:1 Mem:8.00M", 1)]).1

/-- C8 (amended) at the concrete at-capacity submission. -/
theorem C8_witness :
    (render_page_post reqAtCapacity).1 = SubmitOutcome.capacityExceeded 429
    ∧ (render_page_post reqAtCapacity).2
        = [Effect.mkWorkdir, Effect.saveUpload, Effect.rmWorkdir] :=
  have h := (C8_amended_capacity reqAtCapacity).1 rfl (by decide) (by decide)
    (by decide) rfl (by decide)
  ⟨h.1, h.2.1⟩

/-- C9 at a concrete input: stored ETA 10, average 2, frame elapsed 4 > 3,
so the refined ETA is `max 0 (10 + (4 − 2)/2)`. -/
theorem C9_witness :
    (job_status none (some sampleStatusJob) 104).1.etaSeconds
      = some (max 0 (10 + ((104 - 100) - 2) * (1 / 2 : ℚ))) :=
  (C9_eta_refinement sampleStatusJob 104 2 100 10 rfl rfl (by norm_num) rfl
    (by norm_num) (by decide) rfl).1 (by norm_num)

/-- C10 at a concrete errored job whose cleanup has not run. -/
theorem C10_witness :
    (job_status none (some sampleErrorJob) 2000).2.1
        = some { sampleErrorJob with cleanupDone := true }
    ∧ (job_status none (some sampleErrorJob) 2000).2.2 = [Effect.rmWorkdir] :=
  ⟨(C10_status_cleanup sampleErrorJob 2000 2001 rfl rfl).1,
   (C10_status_cleanup sampleErrorJob 2000 2001 rfl rfl).2.1⟩

end Motivora
